import Mathlib

/-!
Shallow embedding of the `openapi-context` crate: a request-processing
pipeline toolkit that threads per-request metadata (an `X-Span-ID` trace
identifier, authorization data) through composable hyper service stages.

Embedded source files: `src/header.rs` (the `XSpanId` codec),
`src/add_context.rs` (`AddContextService`), `src/auth.rs`
(`Scopes`, `Authorization`, `AuthData`, `AllowAllAuthenticator`) and
`src/drop_context.rs` (`DropContextService`).

Strings and header values are modelled as lists of bytes (`List Nat`);
the relevant values are all ASCII, so the Rust `String`/UTF-8 distinction
is immaterial.  Rust panics (`unwrap` on an error, and the
`HeaderName::from_static` panic inside the `X_SPAN_ID_HEADER` lazy
static) are modelled as `Option.none` results that propagate to the
caller.  Randomness (the UUID drawn by `Uuid::new_v4`) is passed as an
explicit parameter.
-/

set_option autoImplicit false

namespace OpenapiContext

/-- A header value, as in `http::HeaderValue`: a raw byte sequence. -/
abbrev HeaderValue := List Nat

/-- A header name (already in its canonical form). -/
abbrev HeaderName := List Nat

/-- Byte predicate used by `http::HeaderValue::to_str`: visible ASCII
(32..=126) or horizontal tab. `to_str` succeeds iff every byte satisfies
this. -/
def isVisibleAscii (b : Nat) : Bool := (32 ≤ b && b < 127) || b == 9

/-- Byte predicate used by `http::HeaderValue::from_str` /
`from_maybe_shared`: any byte ≥ 32 except DEL (127), or horizontal tab
(obs-text bytes ≥ 128 are allowed here but not by `to_str`). -/
def isValidHeaderByte (b : Nat) : Bool := (32 ≤ b && b != 127) || b == 9

/-- `http::HeaderValue::to_str`: yields the value's bytes as text iff every
byte is visible ASCII, otherwise a `ToStrError` (modelled as `none`). -/
def headerValueToStr (v : HeaderValue) : Option (List Nat) :=
  if v.all isVisibleAscii then some v else none

/-- `http::HeaderValue::from_str`: accepts the string's bytes iff every
byte is a valid header byte, otherwise `InvalidHeaderValue` (modelled as
`none`). -/
def headerValueFromStr (s : List Nat) : Option HeaderValue :=
  if s.all isValidHeaderByte then some s else none

/-- `headers::Error`: the only constructor the embedded code uses is
`headers::Error::invalid()`. -/
inductive HeadersError : Type where
  | invalid : HeadersError
  deriving DecidableEq

/-- `pub const X_SPAN_ID: &str = "X-Span-ID";` — the bytes of the
`X-Span-ID` header name (`src/header.rs`). -/
def X_SPAN_ID : HeaderName := [88, 45, 83, 112, 97, 110, 45, 73, 68]

/-- Byte accepted by `http::HeaderName::from_static`: a lower-case
header-name byte — digits, lower-case letters, or one of the other token
characters `! # $ % & ' * + - . ^ _ \x60 | ~`.  Upper-case letters are
rejected: `from_static` borrows the static string and cannot lower-case
it, so it panics on them. -/
def isValidStaticHeaderNameByte (b : Nat) : Bool :=
  (48 ≤ b && b ≤ 57) || (97 ≤ b && b ≤ 122) || b == 33 || b == 35 || b == 36
    || b == 37 || b == 38 || b == 39 || b == 42 || b == 43 || b == 45 || b == 46
    || b == 94 || b == 95 || b == 96 || b == 124 || b == 126

/-- `http::HeaderName::from_static`: yields the name iff every byte is a
valid lower-case header-name byte, and panics otherwise (modelled as
`none`). -/
def headerNameFromStatic (s : List Nat) : Option HeaderName :=
  if s.all isValidStaticHeaderNameByte then some s else none

/-- The `X_SPAN_ID_HEADER` lazy static (`src/header.rs`):
`HeaderName::from_static(X_SPAN_ID)`, evaluated at first dereference.
`"X-Span-ID"` contains upper-case bytes, so the initializer panics
(`none`); every later dereference hits the poisoned value again. -/
def X_SPAN_ID_HEADER : Option HeaderName := headerNameFromStatic X_SPAN_ID

/-- `pub struct XSpanId(pub String);` — wrapper for a string being used as
an X-Span-ID (`src/header.rs`). -/
structure XSpanId : Type where
  val : List Nat
  deriving DecidableEq

/-! ### UUID generation (`Uuid::new_v4().to_string()`)

`XSpanId::default` formats a freshly drawn 128-bit UUID value as the
hyphenated lowercase-hex string `xxxxxxxx-xxxx-xxxx-xxxx-xxxxxxxxxxxx`.
The randomly drawn 128-bit value is the explicit parameter `u`. -/

/-- Lowercase hex digit character for a nibble: `0-9` then `a-f`. -/
def toHexDigit (d : Nat) : Nat := if d < 10 then 48 + d else 87 + d

/-- The `k` lowercase hex digits of `n % 16^k`, most significant first. -/
def toHexCore : Nat → Nat → List Nat
  | _, 0 => []
  | n, k + 1 => toHexCore (n / 16) k ++ [toHexDigit (n % 16)]

/-- `uuid::Uuid::to_string` on the 128-bit value `u`: 32 lowercase hex
digits in 8-4-4-4-12 groups separated by `-` (byte 45). -/
def uuidToString (u : Nat) : List Nat :=
  (toHexCore u 32).take 8 ++ [45] ++ ((toHexCore u 32).drop 8).take 4 ++ [45]
    ++ ((toHexCore u 32).drop 12).take 4 ++ [45] ++ ((toHexCore u 32).drop 16).take 4
    ++ [45] ++ (toHexCore u 32).drop 20

/-- `impl Default for XSpanId`: `XSpanId(Uuid::new_v4().to_string())`
(`src/header.rs`); `u` is the 128-bit value drawn by `Uuid::new_v4`. -/
def XSpanId.default (u : Nat) : XSpanId := ⟨uuidToString u⟩

/-! ### The `Header` impl for `XSpanId` (`src/header.rs`) -/

/-- `XSpanId::decode` (`impl Header for XSpanId`): take the next header
value from the iterator (error `invalid` if exhausted), convert it to
text with `to_str` (error `invalid` on failure), and wrap it. -/
def XSpanId.decode (values : List HeaderValue) : Except HeadersError XSpanId :=
  match values with
  | [] => .error HeadersError.invalid
  | v :: _ =>
    match headerValueToStr v with
    | none => .error HeadersError.invalid
    | some s => .ok ⟨s⟩

/-- `XSpanId::encode` (`impl Header for XSpanId`): build a `HeaderValue`
from the identifier's string form — the internal `.unwrap()` panic is
modelled as `none` — and extend the sink with exactly that one value. -/
def XSpanId.encode (x : XSpanId) : Option (List HeaderValue) :=
  match headerValueFromStr x.val with
  | none => none
  | some v => some [v]

/-! ### Header-map lookup (`headers::HeaderMapExt::typed_get`) -/

/-- A header map: name/value pairs in insertion order (names already
canonical). -/
abbrev HeaderMap := List (HeaderName × HeaderValue)

/-- `HeaderMap::get_all(name)`: all values stored under `name`, in
order. -/
def getAll (headers : HeaderMap) (n : HeaderName) : List HeaderValue :=
  (headers.filter (fun p => p.1 = n)).map Prod.snd

/-- `headers::HeaderMapExt::typed_get::<XSpanId>`: first obtains the
header's name via `XSpanId::name()`, which dereferences the
`X_SPAN_ID_HEADER` lazy static — if its initializer panicked the panic
propagates (outer `none`), before the absent-header branch is ever
reached.  Otherwise: `Ok(None)` when no value is present under the name,
else `XSpanId::decode` on the values, with decode errors flattened to
`None`. -/
def typedGetXSpanId (headers : HeaderMap) : Option (Option XSpanId) :=
  match X_SPAN_ID_HEADER with
  | none => none
  | some name =>
    let vs := getAll headers name
    if vs.isEmpty then some none
    else
      match XSpanId.decode vs with
      | .ok x => some (some x)
      | .error _ => some none

/-- `hyper::Request<B>`: the parts the embedded code reads — a header map
and a body. -/
structure Request (B : Type) : Type where
  headers : HeaderMap
  body : B

/-- `XSpanId::get_or_generate` (`src/header.rs`): extract an X-Span-ID
from a request header if present, and if not generate a new one; `u` is
the 128-bit value `Uuid::new_v4` would draw in the generate branch.  The
panic of the poisoned `X_SPAN_ID_HEADER` static inside `typed_get`
propagates (`none`), so the documented extract-or-generate behavior is
never reached. -/
def XSpanId.get_or_generate {B : Type} (u : Nat) (req : Request B) : Option XSpanId :=
  match typedGetXSpanId req.headers with
  | none => none
  | some (some x) => some x
  | some none => some (XSpanId.default u)

/-! ### Context-stack contract and contextual payload

These two items live in the crate root, which is not among the provided
source files; only their uses in `add_context.rs`, `auth.rs` and
`drop_context.rs` are visible.  They are therefore modelled from the
spec. -/

/-- Modelled from the spec: the `Push` context-stack contract of the
missing crate root — `push(context, value)` yields a new context, of a
type distinguishable from the input's, that holds `value` newest-first
together with everything the input context held; previously attached
values are never mutated or destroyed. -/
structure Pushed (T : Type) (C : Type) : Type where
  head : T
  tail : C
  deriving DecidableEq

/-- Modelled from the spec: the `push` operation of the `Push` contract —
a total, pure operation attaching `t` on top of `c`. -/
def Push.push {C T : Type} (c : C) (t : T) : Pushed T C := ⟨t, c⟩

/-- Modelled from the spec: `ContextualPayload` of the missing crate root
— a raw request paired with the current context stack (field names
`inner` and `context` as used by the struct literals in
`add_context.rs`, `auth.rs` and `drop_context.rs`). -/
structure ContextualPayload (C : Type) (B : Type) : Type where
  inner : Request B
  context : C

/-! ### Readiness (`hyper::service::Service::poll_ready`) -/

/-- `std::task::Poll`. -/
inductive Poll (α : Type) : Type where
  | ready : α → Poll α
  | pending : Poll α
  deriving DecidableEq

/-! ### `AddContextService` (`src/add_context.rs`)

The service wraps an inner service `T`; its `call` is embedded with the
inner service as a function from the payload it is handed to its output
type `F` (the inner unit's future).  `u` is the 128-bit value
`Uuid::new_v4` would draw if a fresh identifier is generated. -/

/-- `AddContextService::call`: obtain or generate the X-Span-ID, push it
onto a freshly default-initialized context `C::default()`, and delegate
the decorated payload to the inner service.  A panic in
`XSpanId::get_or_generate` aborts the call (`none`) before the inner
service is invoked. -/
def AddContextService.call {C B F : Type} [Inhabited C] (u : Nat)
    (inner : ContextualPayload (Pushed XSpanId C) B → F) (req : Request B) : Option F :=
  match XSpanId.get_or_generate u req with
  | none => none
  | some x_span_id =>
    let context := Push.push (default : C) x_span_id
    some (inner { inner := req, context := context })

/-- `AddContextService::poll_ready`: returns `Ok(()).into()`, ignoring
the wrapped inner service entirely; `innerReady` is what the inner
service's own `poll_ready` would report (unused, as in the source). -/
def AddContextService.poll_ready {E : Type} (_innerReady : Poll (Except E Unit)) :
    Poll (Except E Unit) :=
  Poll.ready (Except.ok ())

/-! ### Authorization data model (`src/auth.rs`) -/

/-- `Scopes`: some explicit set of scopes (`BTreeSet<String>`, modelled
as a list of strings), or all possible scopes (authorization checking
disabled). -/
inductive Scopes : Type where
  | Some : List (List Nat) → Scopes
  | All : Scopes
  deriving DecidableEq

/-- `Authorization`: storage of authorization parameters for an incoming
request — subject, granted scopes, and optional issuer. -/
structure Authorization : Type where
  subject : List Nat
  scopes : Scopes
  issuer : Option (List Nat)
  deriving DecidableEq

/-- `AuthData`: raw authentication data — HTTP Basic (username,
password), HTTP Bearer (the `Authorization<Bearer>` header value's
bytes), or an API key. -/
inductive AuthData : Type where
  | Basic : List Nat → List Nat → AuthData
  | Bearer : HeaderValue → AuthData
  | ApiKey : List Nat → AuthData
  deriving DecidableEq

/-- The bytes of the string `"Bearer "` prepended by
`headers::Authorization::bearer`. -/
def bearerPrefix : List Nat := [66, 101, 97, 114, 101, 114, 32]

/-- `headers::Authorization::<Bearer>::bearer(token)` (external `headers`
crate): formats `"Bearer <token>"` and builds a `HeaderValue` from it,
failing (`InvalidBearerToken`) when some byte is not a valid header
byte. -/
def headersAuthorizationBearer (token : List Nat) : Option HeaderValue :=
  headerValueFromStr (bearerPrefix ++ token)

/-- `AuthData::bearer` (`src/auth.rs`): wraps
`headers::Authorization::bearer(token).unwrap()` — the panic of the
`unwrap` on an invalid token is modelled as `none`. -/
def AuthData.bearer (token : List Nat) : Option AuthData :=
  match headersAuthorizationBearer token with
  | none => none
  | some v => some (AuthData.Bearer v)

/-- `AuthData::basic` (`src/auth.rs`). -/
def AuthData.basic (username password : List Nat) : AuthData :=
  AuthData.Basic username password

/-- `AuthData::apikey` (`src/auth.rs`). -/
def AuthData.apikey (apikey : List Nat) : AuthData :=
  AuthData.ApiKey apikey

/-! ### `AllowAllAuthenticator` (`src/auth.rs`) -/

/-- `AllowAllAuthenticator::call`: build
`Authorization { subject, scopes: Scopes::All, issuer: None }` from the
configured subject, push `Some(auth)` onto the payload's context, and
delegate to the inner service with the request body untouched. -/
def AllowAllAuthenticator.call {C B F : Type} (subject : List Nat)
    (inner : ContextualPayload (Pushed (Option Authorization) C) B → F)
    (req : ContextualPayload C B) : F :=
  let auth : Authorization := { subject := subject, scopes := Scopes.All, issuer := none }
  let context := Push.push req.context (some auth)
  inner { inner := req.inner, context := context }

/-- `AllowAllAuthenticator::poll_ready`: returns `Ok(()).into()`,
ignoring the wrapped inner service. -/
def AllowAllAuthenticator.poll_ready {E : Type} (_innerReady : Poll (Except E Unit)) :
    Poll (Except E Unit) :=
  Poll.ready (Except.ok ())

/-! ### `DropContextService` (`src/drop_context.rs`) -/

/-- `DropContextService::call`: pass the bare request `req.inner` to the
wrapped service, discarding the context stack. -/
def DropContextService.call {C B F : Type} (inner : Request B → F)
    (req : ContextualPayload C B) : F :=
  inner req.inner

/-- `DropContextService::poll_ready`: returns `Ok(()).into()`, ignoring
the wrapped inner service. -/
def DropContextService.poll_ready {E : Type} (_innerReady : Poll (Except E Unit)) :
    Poll (Except E Unit) :=
  Poll.ready (Except.ok ())

/-! ### Helper lemmas about hex formatting and byte predicates -/

/-- Nibble value of a lowercase hex digit character (inverse of
`toHexDigit` on nibbles). -/
def fromHexDigit (c : Nat) : Nat := if c < 58 then c - 48 else c - 87

theorem fromHexDigit_toHexDigit {d : Nat} (h : d < 16) :
    fromHexDigit (toHexDigit d) = d := by
  simp only [toHexDigit, fromHexDigit]
  split_ifs <;> omega

theorem foldl_toHexCore (k : Nat) : ∀ a n : Nat,
    (toHexCore n k).foldl (fun a c => a * 16 + fromHexDigit c) a = a * 16 ^ k + n % 16 ^ k := by
  induction k with
  | zero => intro a n; simp [toHexCore, Nat.mod_one]
  | succ k ih =>
    intro a n
    rw [toHexCore, List.foldl_append]
    simp only [List.foldl_cons, List.foldl_nil]
    rw [ih, fromHexDigit_toHexDigit (Nat.mod_lt _ (by omega))]
    have hmod : n % 16 ^ (k + 1) = n % 16 + 16 * (n / 16 % 16 ^ k) := by
      rw [pow_succ, mul_comm, Nat.mod_mul]
    rw [hmod, pow_succ]
    ring

theorem toHexCore_inj {n₁ n₂ : Nat} (h₁ : n₁ < 16 ^ 32) (h₂ : n₂ < 16 ^ 32)
    (h : toHexCore n₁ 32 = toHexCore n₂ 32) : n₁ = n₂ := by
  have e₁ := foldl_toHexCore 32 0 n₁
  have e₂ := foldl_toHexCore 32 0 n₂
  rw [h, e₂, Nat.mod_eq_of_lt h₁, Nat.mod_eq_of_lt h₂] at e₁
  omega

theorem mem_toHexCore {c : Nat} {n k : Nat} (h : c ∈ toHexCore n k) :
    ∃ d, d < 16 ∧ c = toHexDigit d := by
  induction k generalizing n with
  | zero => simp [toHexCore] at h
  | succ k ih =>
    rw [toHexCore] at h
    rcases List.mem_append.mp h with h | h
    · exact ih h
    · simp only [List.mem_singleton] at h
      exact ⟨n % 16, Nat.mod_lt _ (by omega), h⟩

theorem toHexDigit_ne_hyphen {d : Nat} (h : d < 16) : toHexDigit d ≠ 45 := by
  simp only [toHexDigit]
  split_ifs <;> omega

theorem toHexDigit_visible {d : Nat} (h : d < 16) :
    isVisibleAscii (toHexDigit d) = true := by
  simp only [toHexDigit, isVisibleAscii, Bool.or_eq_true, Bool.and_eq_true,
    decide_eq_true_eq, beq_iff_eq]
  split_ifs <;> omega

theorem visible_implies_valid {b : Nat} (h : isVisibleAscii b = true) :
    isValidHeaderByte b = true := by
  simp only [isVisibleAscii, isValidHeaderByte, Bool.or_eq_true, Bool.and_eq_true,
    decide_eq_true_eq, beq_iff_eq, bne_iff_ne, ne_eq] at h ⊢
  omega

theorem take_drop_assemble (d : List Nat) :
    d.take 8 ++ ((d.drop 8).take 4 ++ ((d.drop 12).take 4
      ++ ((d.drop 16).take 4 ++ d.drop 20))) = d := by
  have h16 : (d.drop 16).take 4 ++ d.drop 20 = d.drop 16 := by
    have h := List.take_append_drop 4 (d.drop 16)
    rwa [List.drop_drop] at h
  have h12 : (d.drop 12).take 4 ++ d.drop 16 = d.drop 12 := by
    have h := List.take_append_drop 4 (d.drop 12)
    rwa [List.drop_drop] at h
  have h8 : (d.drop 8).take 4 ++ d.drop 12 = d.drop 8 := by
    have h := List.take_append_drop 4 (d.drop 8)
    rwa [List.drop_drop] at h
  rw [h16, h12, h8, List.take_append_drop]

theorem filter_uuidToString (u : Nat) :
    (uuidToString u).filter (fun c => c != 45) = toHexCore u 32 := by
  have hmem : ∀ c ∈ toHexCore u 32, (c != 45) = true := by
    intro c hc
    obtain ⟨d, hd, rfl⟩ := mem_toHexCore hc
    simpa using toHexDigit_ne_hyphen hd
  have hfilter : ∀ l : List Nat, l ⊆ toHexCore u 32 →
      l.filter (fun c => c != 45) = l :=
    fun l hl => List.filter_eq_self.mpr (fun c hc => hmem c (hl hc))
  have hhyph : List.filter (fun c => c != 45) [45] = [] := by decide
  unfold uuidToString
  simp only [List.filter_append, hhyph, List.append_nil, List.nil_append]
  rw [hfilter _ (List.take_subset _ _),
    hfilter _ (fun c hc => List.drop_subset _ _ (List.take_subset _ _ hc)),
    hfilter _ (fun c hc => List.drop_subset _ _ (List.take_subset _ _ hc)),
    hfilter _ (fun c hc => List.drop_subset _ _ (List.take_subset _ _ hc)),
    hfilter _ (List.drop_subset _ _)]
  simp only [List.append_assoc]
  exact take_drop_assemble (toHexCore u 32)

theorem uuidToString_ne_nil (u : Nat) : uuidToString u ≠ [] := by
  unfold uuidToString
  intro h
  simp at h

theorem mem_uuidToString {c u : Nat} (h : c ∈ uuidToString u) :
    c = 45 ∨ ∃ d, d < 16 ∧ c = toHexDigit d := by
  unfold uuidToString at h
  simp only [List.append_assoc, List.mem_append, List.mem_singleton] at h
  rcases h with h | h | h | h | h | h | h | h | h
  · exact Or.inr (mem_toHexCore (List.take_subset _ _ h))
  · exact Or.inl h
  · exact Or.inr (mem_toHexCore (List.drop_subset _ _ (List.take_subset _ _ h)))
  · exact Or.inl h
  · exact Or.inr (mem_toHexCore (List.drop_subset _ _ (List.take_subset _ _ h)))
  · exact Or.inl h
  · exact Or.inr (mem_toHexCore (List.drop_subset _ _ (List.take_subset _ _ h)))
  · exact Or.inl h
  · exact Or.inr (mem_toHexCore (List.drop_subset _ _ h))

theorem uuidToString_visible (u : Nat) :
    (uuidToString u).all isVisibleAscii = true := by
  rw [List.all_eq_true]
  intro c hc
  rcases mem_uuidToString hc with rfl | ⟨d, hd, rfl⟩
  · decide
  · exact toHexDigit_visible hd

theorem XSpanId_default_inj {u₁ u₂ : Nat} (h₁ : u₁ < 2 ^ 128) (h₂ : u₂ < 2 ^ 128)
    (h : XSpanId.default u₁ = XSpanId.default u₂) : u₁ = u₂ := by
  have hv : uuidToString u₁ = uuidToString u₂ := congrArg XSpanId.val h
  have hf := congrArg (List.filter (fun c => c != 45)) hv
  rw [filter_uuidToString, filter_uuidToString] at hf
  have h16 : (16 : Nat) ^ 32 = 2 ^ 128 := by norm_num
  exact toHexCore_inj (h16 ▸ h₁) (h16 ▸ h₂) hf

/-- A request carries a well-formed `X-Span-ID` header with value `v`: the
first value stored under the header name is the byte sequence `v` and it
is valid header text (so `XSpanId::decode` would succeed on it). -/
def hasWellFormedXSpanId {B : Type} (req : Request B) (v : List Nat) : Prop :=
  ∃ rest, getAll req.headers X_SPAN_ID = v :: rest ∧ v.all isVisibleAscii = true

/-- The `X_SPAN_ID_HEADER` initializer panics: `"X-Span-ID"` contains the
upper-case bytes 88 (`X`), 83 (`S`), 73 (`I`) and 68 (`D`), which
`HeaderName::from_static` rejects. -/
theorem X_SPAN_ID_HEADER_eq_none : X_SPAN_ID_HEADER = none := by decide

/-- C1 (code bug): for every request carrying a well-formed `X-Span-ID`
header with value `v`, `AddContextService::call` panics (the
`from_static("X-Span-ID")` initializer of the `X_SPAN_ID_HEADER` lazy
static aborts on the upper-case name, inside `typed_get` inside
`XSpanId::get_or_generate`) — it never pushes `v` and never delegates to
the inner unit, contrary to the claim and to `get_or_generate`'s own
documentation. -/
theorem addContext_call_panics_despite_header {C B F : Type} [Inhabited C] (u : Nat)
    (inner : ContextualPayload (Pushed XSpanId C) B → F) (req : Request B)
    (v : List Nat) (_h : hasWellFormedXSpanId req v) :
    AddContextService.call u inner req = none := by
  unfold AddContextService.call XSpanId.get_or_generate typedGetXSpanId
  rw [X_SPAN_ID_HEADER_eq_none]

/-- Witness for C1: on the concrete request whose `X-Span-ID` header
holds the well-formed value byte `118`, the call aborts instead of
pushing the identifier. -/
theorem addContext_call_panics_despite_header_witness :
    AddContextService.call (C := Unit) 37
        (fun p : ContextualPayload (Pushed XSpanId Unit) Unit => p)
        { headers := [(X_SPAN_ID, [118])], body := () } = none :=
  addContext_call_panics_despite_header 37 _ _ [118] ⟨[], by decide, by decide⟩

/-- C2 (code bug): for every request lacking the `X-Span-ID` header,
`AddContextService::call` panics through the same poisoned
`X_SPAN_ID_HEADER` static before the generate branch is reached, so no
identifier is ever pushed.  The generator itself does satisfy the
claimed properties: `XSpanId::default` yields a non-empty identifier and
is collision-free across distinct 128-bit `Uuid::new_v4` draws. -/
theorem addContext_call_panics_without_header {C B F : Type} [Inhabited C] (u : Nat)
    (inner : ContextualPayload (Pushed XSpanId C) B → F) (req : Request B)
    (_h : getAll req.headers X_SPAN_ID = []) :
    AddContextService.call u inner req = none
      ∧ (XSpanId.default u).val ≠ []
      ∧ ∀ u₁ u₂ : Nat, u₁ < 2 ^ 128 → u₂ < 2 ^ 128 → u₁ ≠ u₂ →
          XSpanId.default u₁ ≠ XSpanId.default u₂ := by
  refine ⟨?_, uuidToString_ne_nil u,
    fun u₁ u₂ h₁ h₂ hne hEq => hne (XSpanId_default_inj h₁ h₂ hEq)⟩
  unfold AddContextService.call XSpanId.get_or_generate typedGetXSpanId
  rw [X_SPAN_ID_HEADER_eq_none]

/-- Witness for C2: on a concrete request with one unrelated header and no
`X-Span-ID`, the call aborts instead of pushing a generated identifier. -/
theorem addContext_call_panics_without_header_witness :
    AddContextService.call (C := Unit) 5
        (fun p : ContextualPayload (Pushed XSpanId Unit) Unit => p)
        { headers := [([97], [98])], body := () } = none
      ∧ (XSpanId.default 5).val ≠ []
      ∧ ∀ u₁ u₂ : Nat, u₁ < 2 ^ 128 → u₂ < 2 ^ 128 → u₁ ≠ u₂ →
          XSpanId.default u₁ ≠ XSpanId.default u₂ :=
  addContext_call_panics_without_header 5 _ _ (by decide)

/-- C3: for every contextual payload and configured subject,
`AllowAllAuthenticator::call` delegates the payload whose context is the
input context with exactly
`Some(Authorization { subject, scopes: All, issuer: None })` pushed and
whose body is the input body, unchanged — a deterministic function of the
configured subject, independent of the payload's prior contents. -/
theorem allowAll_call_pushes_authorization {C B F : Type} (subject : List Nat)
    (inner : ContextualPayload (Pushed (Option Authorization) C) B → F)
    (req : ContextualPayload C B) :
    AllowAllAuthenticator.call subject inner req
      = inner { inner := req.inner,
                context := Push.push req.context
                  (some { subject := subject, scopes := Scopes.All, issuer := none }) } :=
  rfl

/-- C4: `DropContextService::call` passes exactly the bare request to the
wrapped unit, and its result does not depend on the context at all (the
entire context stack is discarded). -/
theorem dropContext_call_drops_context {C B F : Type} (inner : Request B → F)
    (b : Request B) (c : C) :
    DropContextService.call inner { inner := b, context := c } = inner b
      ∧ ∀ c' : C, DropContextService.call inner { inner := b, context := c }
          = DropContextService.call inner { inner := b, context := c' } :=
  ⟨rfl, fun _ => rfl⟩

theorem headerValueToStr_eq_some {v s : List Nat} (h : headerValueToStr v = some s) :
    s = v ∧ v.all isVisibleAscii = true := by
  unfold headerValueToStr at h
  split_ifs at h with hv
  exact ⟨(Option.some.inj h).symm, hv⟩

/-- C5: round-trip — for every identifier `x` containing only header-safe
(visible ASCII) bytes, encoding yields exactly one header value and
decoding that value yields `x` again. -/
theorem xspanid_decode_encode_roundtrip (x : List Nat)
    (h : x.all isVisibleAscii = true) :
    ∃ v, XSpanId.encode ⟨x⟩ = some [v]
      ∧ XSpanId.decode [v] = Except.ok ⟨x⟩ := by
  have hvalid : x.all isValidHeaderByte = true := by
    rw [List.all_eq_true] at h ⊢
    exact fun c hc => visible_implies_valid (h c hc)
  refine ⟨x, ?_, ?_⟩
  · simp [XSpanId.encode, headerValueFromStr, hvalid]
  · simp [XSpanId.decode, headerValueToStr, h]

/-- Witness for C5: the identifier `"hi"` (bytes 104, 105) round-trips
through `encode` then `decode`. -/
theorem xspanid_decode_encode_roundtrip_witness :
    ∃ v, XSpanId.encode ⟨[104, 105]⟩ = some [v]
      ∧ XSpanId.decode [v] = Except.ok ⟨[104, 105]⟩ :=
  xspanid_decode_encode_roundtrip [104, 105] (by decide)

/-- C6: `XSpanId::decode` fails with the invalid-header error exactly when
no header value is supplied or the supplied (first) value cannot be
interpreted as text; on any value that is valid header text it succeeds,
returning that text as the identifier. -/
theorem xspanid_decode_invalid_iff (values : List HeaderValue) :
    ((∃ e, XSpanId.decode values = Except.error e) ↔
        values = [] ∨ ∃ v rest, values = v :: rest ∧ headerValueToStr v = none)
      ∧ ∀ v rest s, values = v :: rest → headerValueToStr v = some s →
          XSpanId.decode values = Except.ok ⟨s⟩ := by
  constructor
  · constructor
    · rintro ⟨e, he⟩
      cases values with
      | nil => exact Or.inl rfl
      | cons v rest =>
        refine Or.inr ⟨v, rest, rfl, ?_⟩
        cases hts : headerValueToStr v with
        | none => rfl
        | some s => simp [XSpanId.decode, hts] at he
    · rintro (rfl | ⟨v, rest, rfl, hv⟩)
      · exact ⟨HeadersError.invalid, rfl⟩
      · exact ⟨HeadersError.invalid, by simp [XSpanId.decode, hv]⟩
  · rintro v rest s rfl hs
    simp [XSpanId.decode, hs]

/-- Witness for C6: the list holding the single non-text value `[200]`
(an obs-text byte) makes `decode` fail, and the single text value
`[104]` makes it succeed with identifier `"h"`. -/
theorem xspanid_decode_invalid_iff_witness :
    (∃ e, XSpanId.decode [[200]] = Except.error e)
      ∧ XSpanId.decode [[104]] = Except.ok ⟨[104]⟩ :=
  ⟨(xspanid_decode_invalid_iff [[200]]).1.mpr
      (Or.inr ⟨[200], [], rfl, by decide⟩),
    (xspanid_decode_invalid_iff [[104]]).2 [104] [] [104] rfl (by decide)⟩

/-- C7: `XSpanId::encode` produces exactly one header value, equal to the
identifier's string form, and its internal `unwrap` cannot fail for any
identifier produced by this system — one freshly generated by
`XSpanId::default` or one previously returned by a successful
`XSpanId::decode`. -/
theorem xspanid_encode_total_for_system_ids (x : XSpanId)
    (h : (∃ u, x = XSpanId.default u) ∨ ∃ vs, XSpanId.decode vs = Except.ok x) :
    ∃ v, XSpanId.encode x = some [v] ∧ v = x.val := by
  have hvalid : x.val.all isValidHeaderByte = true := by
    rcases h with ⟨u, rfl⟩ | ⟨vs, hvs⟩
    · rw [List.all_eq_true]
      intro c hc
      exact visible_implies_valid (List.all_eq_true.mp (uuidToString_visible u) c hc)
    · cases vs with
      | nil => simp [XSpanId.decode] at hvs
      | cons v rest =>
        cases hts : headerValueToStr v with
        | none => simp [XSpanId.decode, hts] at hvs
        | some s =>
          simp only [XSpanId.decode, hts, Except.ok.injEq] at hvs
          obtain ⟨rfl, hvis⟩ := headerValueToStr_eq_some hts
          rw [← hvs]
          rw [List.all_eq_true] at hvis ⊢
          exact fun c hc => visible_implies_valid (hvis c hc)
  exact ⟨x.val, by simp [XSpanId.encode, headerValueFromStr, hvalid], rfl⟩

/-- Witness for C7: encoding the identifier freshly generated from the
128-bit draw `0` succeeds with exactly one header value, the identifier's
own bytes. -/
theorem xspanid_encode_total_for_system_ids_witness :
    ∃ v, XSpanId.encode (XSpanId.default 0) = some [v]
      ∧ v = (XSpanId.default 0).val :=
  xspanid_encode_total_for_system_ids (XSpanId.default 0) (Or.inl ⟨0, rfl⟩)

/-- C8 (code bug): the authorization-attaching and context-dropping
stages do return the wrapped inner unit's result directly — in particular
inner failures pass through them unchanged, never inspected, wrapped or
recovered — but the context-attaching stage does not: for every request,
`AddContextService::call` panics inside `get_or_generate` (the poisoned
`X_SPAN_ID_HEADER` static) before the inner unit is ever invoked, so no
inner result, success or failure, is produced or propagated by it. -/
theorem stages_pass_inner_result_through {C B E R : Type} [Inhabited C] (u : Nat)
    (inner₁ : ContextualPayload (Pushed XSpanId C) B → Except E R)
    (inner₂ : ContextualPayload (Pushed (Option Authorization) C) B → Except E R)
    (inner₃ : Request B → Except E R)
    (subject : List Nat) (req₁ : Request B) (req₂ req₃ : ContextualPayload C B)
    (e₂ e₃ : E)
    (h₂ : inner₂ { inner := req₂.inner,
                   context := Push.push req₂.context
                     (some { subject := subject, scopes := Scopes.All, issuer := none }) }
          = Except.error e₂)
    (h₃ : inner₃ req₃.inner = Except.error e₃) :
    AddContextService.call u inner₁ req₁ = none
      ∧ AllowAllAuthenticator.call subject inner₂ req₂
        = inner₂ { inner := req₂.inner,
                   context := Push.push req₂.context
                     (some { subject := subject, scopes := Scopes.All, issuer := none }) }
      ∧ AllowAllAuthenticator.call subject inner₂ req₂ = Except.error e₂
      ∧ DropContextService.call inner₃ req₃ = inner₃ req₃.inner
      ∧ DropContextService.call inner₃ req₃ = Except.error e₃ := by
  refine ⟨?_, rfl, h₂, rfl, h₃⟩
  unfold AddContextService.call XSpanId.get_or_generate typedGetXSpanId
  rw [X_SPAN_ID_HEADER_eq_none]

/-- Witness for C8: with inner units that fail with errors 2 and 3, the
authorization-attaching and context-dropping stages forward exactly those
errors, while the context-attaching stage aborts without ever reaching
its inner unit. -/
theorem stages_pass_inner_result_through_witness :
    AddContextService.call (C := Unit) (B := Unit) 0
        (fun _ => (Except.error 1 : Except Nat Nat)) { headers := [], body := () }
        = none
      ∧ AllowAllAuthenticator.call (C := Unit) (B := Unit) [115]
          (fun _ => (Except.error 2 : Except Nat Nat))
          { inner := { headers := [], body := () }, context := () }
          = (Except.error 2 : Except Nat Nat)
      ∧ AllowAllAuthenticator.call (C := Unit) (B := Unit) [115]
          (fun _ => (Except.error 2 : Except Nat Nat))
          { inner := { headers := [], body := () }, context := () }
          = (Except.error 2 : Except Nat Nat)
      ∧ DropContextService.call (C := Unit) (B := Unit)
          (fun _ => (Except.error 3 : Except Nat Nat))
          { inner := { headers := [], body := () }, context := () }
          = (Except.error 3 : Except Nat Nat)
      ∧ DropContextService.call (C := Unit) (B := Unit)
          (fun _ => (Except.error 3 : Except Nat Nat))
          { inner := { headers := [], body := () }, context := () }
          = (Except.error 3 : Except Nat Nat) :=
  stages_pass_inner_result_through 0 (fun _ => Except.error 1) (fun _ => Except.error 2)
    (fun _ => Except.error 3) [115] { headers := [], body := () }
    { inner := { headers := [], body := () }, context := () }
    { inner := { headers := [], body := () }, context := () } 2 3 rfl rfl

/-- Counterexample for C9: every stage's `poll_ready` reports ready even
when the wrapped inner unit's `poll_ready` reports pending, so readiness
is not delegated to the inner unit. -/
theorem poll_ready_not_delegated_counterexample :
    AddContextService.poll_ready (E := Unit) Poll.pending = Poll.ready (Except.ok ())
      ∧ AllowAllAuthenticator.poll_ready (E := Unit) Poll.pending
        = Poll.ready (Except.ok ())
      ∧ DropContextService.poll_ready (E := Unit) Poll.pending
        = Poll.ready (Except.ok ())
      ∧ (Poll.pending : Poll (Except Unit Unit)) ≠ Poll.ready (Except.ok ()) :=
  ⟨rfl, rfl, rfl, fun h => Poll.noConfusion h⟩

/-- C9 (amended): every stage's readiness check immediately reports
ready — it never blocks acceptance of new work — regardless of the
wrapped inner unit's readiness; readiness is not delegated to the inner
unit. -/
theorem poll_ready_always_ready {E : Type} (innerReady : Poll (Except E Unit)) :
    AddContextService.poll_ready innerReady = Poll.ready (Except.ok ())
      ∧ AllowAllAuthenticator.poll_ready innerReady = Poll.ready (Except.ok ())
      ∧ DropContextService.poll_ready innerReady = Poll.ready (Except.ok ()) :=
  ⟨rfl, rfl, rfl⟩

/-- C10: `AuthData::bearer` panics for some input — on the token
consisting of the single newline byte 10, `"Bearer \n"` is not a valid
header value, so the internal `unwrap` aborts (modelled as `none`). -/
theorem authdata_bearer_panics : AuthData.bearer [10] = none := by decide

end OpenapiContext
